import Mathlib

/-!
Shallow embedding of the streaming core of SaneAudioRenderer
(src/src/AudioRenderer.cpp).  The mutable members of the C++ class
AudioRenderer become a Lean structure; each method becomes a state
transformer.  External collaborators (device manager, hardware clocks,
settings, DSP stages, timings correction) are supplied as oracle inputs:
their answers are parameters or per-iteration event lists, and the calls
the renderer makes to them are reflected in the returned state where the
renderer itself stores the result.  Machine integers are modelled as Nat
or Int; REFERENCE_TIME (100ns units) is Int, UINT64 quantities are Nat.
-/

namespace SaneAudioRenderer

/-- Renderer state machine values, as in the C++ enum. -/
inductive State where
  | State_Stopped
  | State_Paused
  | State_Running
  deriving DecidableEq, Repr

export State (State_Stopped State_Paused State_Running)

/-- The slice of WAVEFORMATEX the core reads. -/
structure WaveFormat where
  nSamplesPerSec : Nat
  nChannels : Nat
  wBitsPerSample : Nat
  deriving DecidableEq, Repr

/-- The slice of the AudioDevice (device session) structure the core reads
and writes: negotiated format, exclusivity and bitstream flags, the
settings serial used for staleness detection, and device identity.
The C++ field named default is rendered isDefault. -/
structure AudioDevice where
  waveFormat : WaveFormat
  bitstream : Bool
  exclusive : Bool
  settingsSerial : Nat
  friendlyName : String
  isDefault : Bool
  deriving DecidableEq, Repr

/-- Mutable members of the C++ AudioRenderer object (the ones the claims
touch).  The two CAMEvents are modelled by their set/reset state. -/
structure AudioRenderer where
  m_state : State
  m_device : Option AudioDevice
  m_pushedFrames : Nat
  m_flush : Bool
  m_bufferFilled : Bool
  m_inputFormat : Option WaveFormat
  m_externalClock : Bool
  m_correctedWithRateDsp : Int
  m_startClockOffset : Int
  m_startTime : Int
  m_rate : Rat
  deriving DecidableEq, Repr

/-- Initial object state: Stopped, no device, zero counters (constructor
plus member initializers). -/
def initialState : AudioRenderer :=
  { m_state := State_Stopped
    m_device := none
    m_pushedFrames := 0
    m_flush := false
    m_bufferFilled := false
    m_inputFormat := none
    m_externalClock := false
    m_correctedWithRateDsp := 0
    m_startClockOffset := 0
    m_startTime := 0
    m_rate := 1 }

/-- OneSecond in REFERENCE_TIME (100ns) units. -/
def OneSecond : Nat := 10000000

/-- MILLISECONDS_TO_100NS_UNITS. -/
def MILLISECONDS_TO_100NS_UNITS (ms : Int) : Int := ms * 10000

/-- llMulDiv(a, b, c, 0) on non-negative operands: a * b / c. -/
def llMulDiv (a b c : Nat) : Int := ((a * b) / c : Nat)

/-- INT64_MAX, the sentinel the drain loop initializes its position
variable with. -/
def INT64_MAX : Int := 9223372036854775807

/-- AudioRenderer::ClearDevice (lines 418-433): stop and drop the device
session (clock unslaving and audioClient Stop are external effects),
reset the buffer-filled event when a session existed, and zero the
pushed-frame counter. -/
def ClearDevice (ar : AudioRenderer) : AudioRenderer :=
  { ar with
      m_bufferFilled := if ar.m_device.isSome then false else ar.m_bufferFilled
      m_device := none
      m_pushedFrames := 0 }

/-- AudioRenderer::BeginFlush (lines 222-225): set the flush event. -/
def BeginFlush (ar : AudioRenderer) : AudioRenderer :=
  { ar with m_flush := true }

/-- AudioRenderer::EndFlush (lines 227-241): when a session exists, reset
its hardware buffer (external call) and the buffer-filled event; reset the
flush event; zero the pushed-frame counter. -/
def EndFlush (ar : AudioRenderer) : AudioRenderer :=
  { ar with
      m_bufferFilled := if ar.m_device.isSome then false else ar.m_bufferFilled
      m_flush := false
      m_pushedFrames := 0 }

/-- Whether EndFlush issues the audioClient Reset call on the device: it
does exactly when a session exists. -/
def EndFlushIssuesDeviceReset (ar : AudioRenderer) : Bool :=
  ar.m_device.isSome

/-- The assert at the top of EndFlush. -/
def EndFlushAssert (ar : AudioRenderer) : Prop :=
  ar.m_state ≠ State_Running

/-- AudioRenderer::StartDevice (lines 384-396): when a session exists,
slave the clock (external effect using m_startTime + m_startClockOffset)
and zero the start clock offset, then start the device. -/
def StartDevice (ar : AudioRenderer) : AudioRenderer :=
  if ar.m_device.isSome then { ar with m_startClockOffset := 0 } else ar

/-- AudioRenderer::Play (lines 292-300). -/
def Play (ar : AudioRenderer) (startTime : Int) : AudioRenderer :=
  StartDevice { ar with m_state := State_Running, m_startTime := startTime }

/-- The assert at the top of Play. -/
def PlayAssert (ar : AudioRenderer) : Prop :=
  ar.m_state ≠ State_Running

/-- AudioRenderer::Pause (lines 302-312): the clock unslaving and device
stop are external effects; the renderer state only records Paused. -/
def Pause (ar : AudioRenderer) : AudioRenderer :=
  { ar with m_state := State_Paused }

/-- Pause has no assert in the source; its contract predicate is True. -/
def PauseAssert (_ar : AudioRenderer) : Prop := True

/-- AudioRenderer::Stop (lines 314-320). -/
def Stop (ar : AudioRenderer) : AudioRenderer :=
  ClearDevice { ar with m_state := State_Stopped }

/-- Stop has no assert in the source; its contract predicate is True. -/
def StopAssert (_ar : AudioRenderer) : Prop := True

/-- AudioRenderer::SetFormat (lines 263-272): record the input format
(timings-correction SetFormat is external) and clear the device. -/
def SetFormat (ar : AudioRenderer) (inputFormat : WaveFormat) : AudioRenderer :=
  ClearDevice { ar with m_inputFormat := some inputFormat }

/-- AudioRenderer::NewSegment (lines 274-290): zero the start clock
offset, record the rate, and when a session exists reinitialize the
processors (InitializeProcessors zeroes m_correctedWithRateDsp). -/
def NewSegment (ar : AudioRenderer) (rate : Rat) : AudioRenderer :=
  let ar1 := { ar with m_startClockOffset := 0, m_rate := rate }
  if ar1.m_device.isSome then { ar1 with m_correctedWithRateDsp := 0 } else ar1

/-- AudioRenderer::SetClock (lines 44-61): reset m_externalClock, and when
the supplied clock differs from the current graph clock, mark the clock
external and clear the device.  The clockChanged oracle stands for the
pClock and m_graphClock comparison. -/
def SetClock (ar : AudioRenderer) (clockChanged : Bool) : AudioRenderer :=
  let ar1 := { ar with m_externalClock := false }
  if clockChanged then ClearDevice { ar1 with m_externalClock := true } else ar1

/-- True when the settings name a specific device other than the session
device: pDeviceName non-null, non-empty and different from friendlyName. -/
def deviceNameSpecifiesOther : Option String → String → Bool
  | some n, friendly => !(n == "") && !(n == friendly)
  | none, _ => false

/-- True when the settings leave the device unspecified: pDeviceName null
or empty. -/
def deviceNameEmpty : Option String → Bool
  | some n => n == ""
  | none => true

/-- AudioRenderer::CheckDeviceSettings (lines 356-382).  serial is the
oracle answer of m_settings GetSerial; outputDeviceQuery is the oracle
answer of GetOuputDevice (none when the call fails, otherwise the device
name pointer and the exclusive flag). -/
def CheckDeviceSettings (ar : AudioRenderer) (serial : Nat)
    (outputDeviceQuery : Option (Option String × Bool)) : AudioRenderer :=
  match ar.m_device with
  | none => ar
  | some dev =>
    if dev.settingsSerial ≠ serial then
      match outputDeviceQuery with
      | none => ar
      | some (pDeviceName, exclusive) =>
        if (dev.exclusive != exclusive)
            || deviceNameSpecifiesOther pDeviceName dev.friendlyName
            || (deviceNameEmpty pDeviceName && !dev.isDefault) then
          ClearDevice ar
        else
          { ar with m_device := some { dev with settingsSerial := serial } }
    else ar

/-- AudioRenderer::CreateDevice (lines 398-416).  created is the oracle
answer of the device manager; lastSampleEnd the oracle answer of
m_timingsCorrection GetLastSampleEnd.  On success the processors are
initialized (zeroing m_correctedWithRateDsp), the start clock offset is
seeded from the timings correction, and when Running the device is
started. -/
def CreateDevice (ar : AudioRenderer) (created : Option AudioDevice)
    (lastSampleEnd : Int) : AudioRenderer :=
  match created with
  | none => { ar with m_device := none }
  | some dev =>
    if ar.m_state = State_Running then
      StartDevice { ar with
          m_device := some dev
          m_correctedWithRateDsp := 0
          m_startClockOffset := lastSampleEnd }
    else { ar with
        m_device := some dev
        m_correctedWithRateDsp := 0
        m_startClockOffset := lastSampleEnd }

/-- Oracle answers for one iteration of the Push loop (lines 471-529):
the outcome of the bounded flush wait (consulted on iterations after the
first), the GetBufferSize / GetCurrentPadding round trip (none when it
throws), whether the GetBuffer / ReleaseBuffer write round trip succeeds,
and the graph clock query used by the device-less completion heuristic
(none when GetTime fails). -/
structure PushIterEvent where
  flushFired : Bool
  bufferQuery : Option (Nat × Nat)
  writeOk : Bool
  graphTime : Option Int
  deriving DecidableEq, Repr

/-- Outcome of one body execution of the Push loop: either the whole
Push returns r, or the loop continues with updated state and done-frame
count. -/
inductive PushStep where
  | ret (r : Bool) (ar : AudioRenderer)
  | next (ar : AudioRenderer) (doneFrames : Nat)
  deriving Repr

/-- The tail of a Push iteration reached with no device (or after a
hardware error cleared it), lines 520-528: set the buffer-filled event
and exit the loop early when, per the graph clock, the undelivered tail
would already have finished playing. -/
def pushNoDeviceTail (ar : AudioRenderer) (lastSampleEnd : Int)
    (doneFrames : Nat) (graphTime : Option Int) : PushStep :=
  let ar1 := { ar with m_bufferFilled := true }
  match graphTime with
  | some t =>
    if ar1.m_state = State_Running
        ∧ t + MILLISECONDS_TO_100NS_UNITS 20 > ar1.m_startTime + lastSampleEnd then
      PushStep.ret true ar1
    else
      PushStep.next ar1 doneFrames
  | none => PushStep.next ar1 doneFrames

/-- One body execution of the Push loop (lines 473-528).  chunkFrames and
doneFrames are the loop bounds; lastSampleEnd is the oracle answer of
m_timingsCorrection GetLastSampleEnd used by the completion heuristic. -/
def pushIter (chunkFrames : Nat) (lastSampleEnd : Int) (ar : AudioRenderer)
    (doneFrames : Nat) (firstIteration : Bool) (ev : PushIterEvent) : PushStep :=
  if !firstIteration && ev.flushFired then
    PushStep.ret false ar
  else
    match ar.m_device with
    | some _dev =>
      match ev.bufferQuery with
      | some (bufferFrames, bufferPadding) =>
        let doFrames := min (bufferFrames - bufferPadding) (chunkFrames - doneFrames)
        if doFrames = 0 then
          PushStep.next ar doneFrames
        else if ev.writeOk then
          let ar1 := { ar with
              m_bufferFilled := decide (bufferPadding + doFrames = bufferFrames)
              m_pushedFrames := ar.m_pushedFrames + doFrames }
          PushStep.next ar1 (doneFrames + doFrames)
        else
          pushNoDeviceTail (ClearDevice ar) lastSampleEnd doneFrames ev.graphTime
      | none =>
        pushNoDeviceTail (ClearDevice ar) lastSampleEnd doneFrames ev.graphTime
    | none =>
      pushNoDeviceTail ar lastSampleEnd doneFrames ev.graphTime

/-- The Push loop (lines 470-529) over a finite trace of oracle events.
Returns none when the trace runs out while the loop would still be
iterating. -/
def pushLoop (chunkFrames : Nat) (lastSampleEnd : Int) (ar : AudioRenderer)
    (doneFrames : Nat) (firstIteration : Bool) :
    List PushIterEvent → Option (Bool × AudioRenderer)
  | [] =>
    if chunkFrames ≤ doneFrames then some (true, ar) else none
  | ev :: rest =>
    if chunkFrames ≤ doneFrames then some (true, ar)
    else
      match pushIter chunkFrames lastSampleEnd ar doneFrames firstIteration ev with
      | PushStep.ret r ar1 => some (r, ar1)
      | PushStep.next ar1 done1 => pushLoop chunkFrames lastSampleEnd ar1 done1 false rest

/-- AudioRenderer::Push (lines 462-532).  The chunk is modelled by its
frame count; an empty chunk returns success immediately. -/
def Push (ar : AudioRenderer) (chunkFrames : Nat) (lastSampleEnd : Int)
    (events : List PushIterEvent) : Option (Bool × AudioRenderer) :=
  if chunkFrames = 0 then some (true, ar)
  else pushLoop chunkFrames lastSampleEnd ar 0 true events

/-- The assert inside the Push loop (line 482). -/
def PushAssert (ar : AudioRenderer) : Prop :=
  ar.m_state ≠ State_Stopped

/-- Oracle answers for one iteration of the blocking drain loop in
Finish (lines 179-216): either the device clock round trip throws, or it
yields a frequency and a position, with the outcome of the subsequent
flush wait. -/
inductive DrainEvent where
  | clockError
  | reading (frequency : Nat) (position : Nat) (flushFired : Bool)
  deriving DecidableEq, Repr

/-- The doBlock lambda of Finish (lines 173-217), over a finite trace of
oracle events; none when the trace runs out while the loop would still be
iterating.  Note the source declares the position variable inside the
for loop and re-initializes it to INT64_MAX every iteration, so previous
always holds INT64_MAX when compared. -/
def doBlock (ar : AudioRenderer) : List DrainEvent → Option (Bool × AudioRenderer)
  | [] =>
    if ar.m_device.isNone then some (true, ar) else none
  | ev :: rest =>
    match ar.m_device with
    | none => some (true, ar)
    | some dev =>
      match ev with
      | DrainEvent.clockError => some (true, ClearDevice ar)
      | DrainEvent.reading frequency position flushFired =>
        let previous : Int := INT64_MAX
        let actual : Int := llMulDiv position OneSecond frequency
        let target : Int := llMulDiv ar.m_pushedFrames OneSecond dev.waveFormat.nSamplesPerSec
        if actual = target then some (true, ar)
        else if actual = previous ∧ ar.m_state = State_Running then some (true, ar)
        else if flushFired then some (false, ar)
        else doBlock ar rest

/-- Modelled from the spec: the drain wait as the spec describes it
(section 4.5 and the design note in section 9), with the stall check
comparing the current position reading against the reading of the
previous loop iteration, the comparison variable persisting across
iterations and starting at INT64_MAX.  This is the comparison point for
the C1 analysis; everything else matches doBlock. -/
def doBlockSpecStall (ar : AudioRenderer) (previous : Int) :
    List DrainEvent → Option (Bool × AudioRenderer)
  | [] =>
    if ar.m_device.isNone then some (true, ar) else none
  | ev :: rest =>
    match ar.m_device with
    | none => some (true, ar)
    | some dev =>
      match ev with
      | DrainEvent.clockError => some (true, ClearDevice ar)
      | DrainEvent.reading frequency position flushFired =>
        let actual : Int := llMulDiv position OneSecond frequency
        let target : Int := llMulDiv ar.m_pushedFrames OneSecond dev.waveFormat.nSamplesPerSec
        if actual = target then some (true, ar)
        else if actual = previous ∧ ar.m_state = State_Running then some (true, ar)
        else if flushFired then some (false, ar)
        else doBlockSpecStall ar actual rest

/-- Modelled from the spec: entry point of the spec-faithful drain wait. -/
def doBlockSpec (ar : AudioRenderer) (events : List DrainEvent) :
    Option (Bool × AudioRenderer) :=
  doBlockSpecStall ar INT64_MAX events

/-- The three clock readings the external-clock rate correction consumes
(lines 102-105). -/
structure ClockTimes where
  graphTime : Int
  myTime : Int
  myStartTime : Int
  deriving DecidableEq, Repr

/-- The external-clock rate micro-adjustment block of Enqueue (lines
99-116).  clockTimes is none when any of the three clock queries fails.
Returns the adjustment handed to m_dspRate (none when none is fed) and
the new value of m_correctedWithRateDsp. -/
def rateDspCorrection (externalClock : Bool) (bitstream : Bool)
    (correctedWithRateDsp : Int) (clockTimes : Option ClockTimes) :
    Option Int × Int :=
  if externalClock && !bitstream then
    match clockTimes with
    | some t =>
      if t.myTime > t.myStartTime then
        let offset := t.graphTime - t.myTime - correctedWithRateDsp
        if |offset| > MILLISECONDS_TO_100NS_UNITS 2 then
          (some offset, correctedWithRateDsp + offset)
        else (none, correctedWithRateDsp)
      else (none, correctedWithRateDsp)
    | none => (none, correctedWithRateDsp)
  else (none, correctedWithRateDsp)

/-- Oracle answers consumed by one Enqueue call. -/
structure EnqueueEnv where
  settingsSerial : Nat
  outputDeviceQuery : Option (Option String × Bool)
  createdDevice : Option AudioDevice
  processedChunk : Nat
  clockTimes : Option ClockTimes
  dspAllocOk : Bool
  dspOutChunk : Nat
  lastSampleEnd : Int
  pushEvents : List PushIterEvent
  deriving Repr

/-- The running-state clock synchronization of Enqueue (lines 88-117):
the slaved-clock offset nudge of lines 90-97 only touches the external
clock object; on the external clock the rate DSP block updates
m_correctedWithRateDsp. -/
def enqueueRunningSync (ar : AudioRenderer) (clockTimes : Option ClockTimes) :
    AudioRenderer :=
  match ar.m_device with
  | some dev =>
    if ar.m_state = State_Running then
      { ar with
          m_correctedWithRateDsp :=
            (rateDspCorrection ar.m_externalClock dev.bitstream
              ar.m_correctedWithRateDsp clockTimes).2 }
    else ar
  | none => ar

/-- The DSP chain invocation of Enqueue (lines 119-135) together with the
std badalloc handler: on a non-bitstream session the chunk becomes the
DSP output (oracle dspOutChunk) on success, while the out-of-resources
condition clears the device and substitutes an empty chunk. -/
def enqueueDsp (ar : AudioRenderer) (chunk : Nat) (dspAllocOk : Bool)
    (dspOutChunk : Nat) : Nat × AudioRenderer :=
  match ar.m_device with
  | some dev =>
    if !dev.bitstream then
      if dspAllocOk then (dspOutChunk, ar)
      else (0, ClearDevice ar)
    else (chunk, ar)
  | none => (chunk, ar)

/-- The locked section of AudioRenderer::Enqueue (lines 74-136): check
device settings, lazily create the device when none exists, obtain the
corrected chunk from the timings correction (oracle processedChunk),
apply the running clock synchronization, then run the DSP chain.
Returns the chunk handed to Push and the state after the lock is
released. -/
def enqueueLocked (ar : AudioRenderer) (env : EnqueueEnv) : Nat × AudioRenderer :=
  let ar1 := CheckDeviceSettings ar env.settingsSerial env.outputDeviceQuery
  let ar2 :=
    if ar1.m_device.isNone then CreateDevice ar1 env.createdDevice env.lastSampleEnd
    else ar1
  let ar3 := enqueueRunningSync ar2 env.clockTimes
  enqueueDsp ar3 env.processedChunk env.dspAllocOk env.dspOutChunk

/-- AudioRenderer::Enqueue (lines 70-139): the locked section followed by
Push outside the lock. -/
def Enqueue (ar : AudioRenderer) (env : EnqueueEnv) : Option (Bool × AudioRenderer) :=
  let r := enqueueLocked ar env
  Push r.2 r.1 env.lastSampleEnd env.pushEvents

/-- The asserts at the top of Enqueue (lines 76-77). -/
def EnqueueAssert (ar : AudioRenderer) : Prop :=
  ar.m_inputFormat.isSome = true ∧ ar.m_state ≠ State_Stopped

/-- Oracle answers consumed by one Finish call. -/
structure FinishEnv where
  dspAllocOk : Bool
  dspOutChunk : Nat
  lastSampleEnd : Int
  pushEvents : List PushIterEvent
  drainEvents : List DrainEvent
  deriving Repr

/-- The chunk drained out of the DSP chain by the locked section of
Finish (lines 145-171): on a non-bitstream session the flush of the DSP
stages yields dspOutChunk (or an empty chunk on std badalloc); otherwise
the chunk stays empty. -/
def finishChunk (ar : AudioRenderer) (env : FinishEnv) : Nat :=
  match ar.m_device with
  | some dev =>
    if !dev.bitstream then (if env.dspAllocOk then env.dspOutChunk else 0) else 0
  | none => 0

/-- AudioRenderer::Finish (lines 141-220): blockUntilEnd is forced off
when no session exists at entry; the drained chunk is pushed, and the
blocking drain wait runs only when Push succeeded and blocking is still
requested. -/
def Finish (ar : AudioRenderer) (blockUntilEnd : Bool) (env : FinishEnv) :
    Option (Bool × AudioRenderer) :=
  let blockUntilEnd := if ar.m_device.isNone then false else blockUntilEnd
  match Push ar (finishChunk ar env) env.lastSampleEnd env.pushEvents with
  | none => none
  | some (false, ar1) => some (false, ar1)
  | some (true, ar1) =>
    if blockUntilEnd then doBlock ar1 env.drainEvents else some (true, ar1)

/-- The assert at the top of Finish (line 147). -/
def FinishAssert (ar : AudioRenderer) : Prop :=
  ar.m_state ≠ State_Stopped

/-- The compatibility test of CheckDeviceSettings, written positively:
the Boolean negation of the incompatibility condition at lines 368-370
(same exclusivity, and the configured name either matches the session
device or is unspecified while the session device is the default one). -/
def deviceSettingsCompatible (dev : AudioDevice) (pDeviceName : Option String)
    (exclusive : Bool) : Bool :=
  !((dev.exclusive != exclusive)
      || deviceNameSpecifiesOther pDeviceName dev.friendlyName
      || (deviceNameEmpty pDeviceName && !dev.isDefault))

/-- Modelled from the spec: the legal source states for Play among the
declared transitions (Stopped to Running, Paused to Running). -/
def specLegalPlayFrom (s : State) : Prop :=
  s = State_Stopped ∨ s = State_Paused

/-- Modelled from the spec: the legal source state for Pause among the
declared transitions (Running to Paused only). -/
def specLegalPauseFrom (s : State) : Prop :=
  s = State_Running

/-- Modelled from the spec: Stop is declared legal from any state. -/
def specLegalStopFrom (_s : State) : Prop := True

/-- The pushed-frames invariant: whenever no device session exists, the
pushed-frame counter is zero. -/
def Inv (ar : AudioRenderer) : Prop :=
  ar.m_device = none → ar.m_pushedFrames = 0

/-- The pushed-frames invariant holding of the state carried by a Push
loop body outcome. -/
def PushStepInv : PushStep → Prop
  | PushStep.ret _ ar => Inv ar
  | PushStep.next ar _ => Inv ar

/-- One externally visible renderer operation, each with its oracle
inputs; Enqueue and Finish step only when their event trace is long
enough for the call to return. -/
inductive Step : AudioRenderer → AudioRenderer → Prop where
  | setClock (ar : AudioRenderer) (clockChanged : Bool) :
      Step ar (SetClock ar clockChanged)
  | play (ar : AudioRenderer) (t : Int) : Step ar (Play ar t)
  | pause (ar : AudioRenderer) : Step ar (Pause ar)
  | stop (ar : AudioRenderer) : Step ar (Stop ar)
  | setFormat (ar : AudioRenderer) (f : WaveFormat) : Step ar (SetFormat ar f)
  | newSegment (ar : AudioRenderer) (rate : Rat) : Step ar (NewSegment ar rate)
  | beginFlush (ar : AudioRenderer) : Step ar (BeginFlush ar)
  | endFlush (ar : AudioRenderer) : Step ar (EndFlush ar)
  | checkDeviceSettings (ar : AudioRenderer) (serial : Nat)
      (q : Option (Option String × Bool)) :
      Step ar (CheckDeviceSettings ar serial q)
  | enqueue (ar : AudioRenderer) (env : EnqueueEnv) (r : Bool) (ar1 : AudioRenderer) :
      Enqueue ar env = some (r, ar1) → Step ar ar1
  | finish (ar : AudioRenderer) (blockUntilEnd : Bool) (env : FinishEnv)
      (r : Bool) (ar1 : AudioRenderer) :
      Finish ar blockUntilEnd env = some (r, ar1) → Step ar ar1

/-- A concrete healthy 48kHz stereo shared-mode device session. -/
def devW : AudioDevice :=
  { waveFormat := { nSamplesPerSec := 48000, nChannels := 2, wBitsPerSample := 16 }
    bitstream := false
    exclusive := false
    settingsSerial := 7
    friendlyName := "Speakers"
    isDefault := true }

/-- A concrete Running renderer holding the devW session. -/
def arRun : AudioRenderer :=
  { initialState with m_state := State_Running, m_device := some devW }

/-- Running renderer with 48000 frames pushed: the drain target is one
second (10000000 time units). -/
def arC1 : AudioRenderer :=
  { arRun with m_pushedFrames := 48000 }

/-- A device clock reading of position 0 at frequency 10000000, flush not
fired: converted position 0, differing from the arC1 target. -/
def evC1 : DrainEvent :=
  DrainEvent.reading 10000000 0 false

/-- Two healthy Push iterations, each reporting a 2-frame buffer that is
empty, writes succeeding, flush never fired. -/
def evsW2 : List PushIterEvent :=
  [ { flushFired := false, bufferQuery := some (2, 0), writeOk := true, graphTime := none }
  , { flushFired := false, bufferQuery := some (2, 0), writeOk := true, graphTime := none } ]

/-- The state arRun ends in after pushing a 3-frame chunk through evsW2:
2 frames then 1 frame written, the second write leaving the buffer not
full. -/
def arW2res : AudioRenderer :=
  { arRun with m_pushedFrames := 3, m_bufferFilled := false }

/-- Enqueue oracle for the C5 witness: settings serial unchanged, DSP
processing hits the out-of-resources condition. -/
def envW5 : EnqueueEnv :=
  { settingsSerial := 7
    outputDeviceQuery := none
    createdDevice := none
    processedChunk := 500
    clockTimes := none
    dspAllocOk := false
    dspOutChunk := 400
    lastSampleEnd := 0
    pushEvents := [] }

/-- Clock readings for the C4 witness: graph clock one hundred thousand
units ahead, audio clock started. -/
def tW : ClockTimes :=
  { graphTime := 100000, myTime := 50, myStartTime := 0 }

/-- A Paused renderer with no device session, for the C10 witness. -/
def arPausedNoDevice : AudioRenderer :=
  { initialState with m_state := State_Paused }

/-- Finish oracle for the C10 witness: a non-empty DSP tail would be
available, but no session exists. -/
def envW10 : FinishEnv :=
  { dspAllocOk := true
    dspOutChunk := 5
    lastSampleEnd := 0
    pushEvents := []
    drainEvents := [evC1] }

/-- A healthy Push iteration reporting a 6-frame buffer with 2 frames of
padding, for the C3 witness. -/
def evW3 : PushIterEvent :=
  { flushFired := false, bufferQuery := some (6, 2), writeOk := true, graphTime := none }

/-- C1: the blocking drain wait of Finish is claimed to return completed
when two consecutive device position readings are equal while the
renderer is Running.  The source re-initializes the position variable to
INT64_MAX at the top of every loop iteration, so the stored previous
reading is always INT64_MAX and the stall check is dead code: with the
renderer Running, a one-second pushed-frame target, and the device clock
reporting the same position 0 on two consecutive healthy readings, the
loop is still iterating after the second reading (result none on the
two-event trace) instead of returning completed, while the spec-modelled
drain wait with a persistent previous reading returns completed there;
the readings convert to a position different from the target, so the
normal completion return does not mask the difference. -/
theorem C1_drain_stall_check_dead :
    doBlock arC1 [evC1, evC1] = none ∧
    doBlockSpec arC1 [evC1, evC1] = some (true, arC1) ∧
    llMulDiv 0 OneSecond 10000000 ≠
      llMulDiv arC1.m_pushedFrames OneSecond devW.waveFormat.nSamplesPerSec ∧
    arC1.m_state = State_Running := by
  refine ⟨by decide, by decide, by decide, rfl⟩

/-- C7: EndFlush zeroes the pushed-frame counter, resets the flush
event, resets the buffer-filled event exactly when a session exists,
issues the hardware buffer reset exactly when a session exists, and its
assert-level precondition is that the state is not Running. -/
theorem C7_end_flush_resets (ar : AudioRenderer) :
    (EndFlush ar).m_pushedFrames = 0 ∧
    (EndFlush ar).m_flush = false ∧
    (EndFlush ar).m_bufferFilled = (if ar.m_device.isSome then false else ar.m_bufferFilled) ∧
    EndFlushIssuesDeviceReset ar = ar.m_device.isSome ∧
    (EndFlushAssert ar ↔ ar.m_state ≠ State_Running) :=
  ⟨rfl, rfl, rfl, rfl, Iff.rfl⟩

/-- C8 counterexample: calling Pause in the Stopped state is not a
declared legal transition, yet the source Pause contains no assertion at
all, so no assertion is violated and the call simply records Paused; the
claim that every illegal Play/Pause/Stop call violates an assertion is
therefore false. -/
theorem C8_pause_unasserted_counterexample :
    initialState.m_state = State_Stopped ∧
    ¬ specLegalPauseFrom initialState.m_state ∧
    PauseAssert initialState ∧
    (Pause initialState).m_state = State_Paused := by
  refine ⟨rfl, ?_, trivial, rfl⟩
  intro h
  simp [specLegalPauseFrom, initialState] at h

/-- C8 amended: the assert of Play holds exactly on the states from
which the declared Play transitions start (not Running), Stop is
declared legal from every state and asserts nothing, and Enqueue, Finish
and Push assert the state is not Stopped (Enqueue additionally asserts
that an input format is set); Pause, however, performs no assertion, so
an illegal Pause does not violate any assert-level contract. -/
theorem C8_state_machine_asserts (ar : AudioRenderer) :
    (PlayAssert ar ↔ specLegalPlayFrom ar.m_state) ∧
    (StopAssert ar ∧ specLegalStopFrom ar.m_state) ∧
    PauseAssert ar ∧
    (EnqueueAssert ar ↔ (ar.m_inputFormat.isSome = true ∧ ar.m_state ≠ State_Stopped)) ∧
    (FinishAssert ar ↔ ar.m_state ≠ State_Stopped) ∧
    (PushAssert ar ↔ ar.m_state ≠ State_Stopped) := by
  refine ⟨?_, ⟨trivial, trivial⟩, trivial, Iff.rfl, Iff.rfl, Iff.rfl⟩
  cases h : ar.m_state <;> simp [PlayAssert, specLegalPlayFrom, h]

/-- C4: with the external clock active on a non-bitstream session and
the audio clock started, the rate DSP stage is fed a micro-adjustment
exactly when the absolute difference between the graph clock time and
the audio clock time, minus the correction already accumulated in
m_correctedWithRateDsp, exceeds two milliseconds of time units; when an
adjustment is applied, the accumulated-correction counter advances by
exactly the applied offset. -/
theorem C4_rate_correction_threshold (correctedWithRateDsp : Int) (t : ClockTimes)
    (hstarted : t.myStartTime < t.myTime) :
    ((rateDspCorrection true false correctedWithRateDsp (some t)).1.isSome = true ↔
      |t.graphTime - t.myTime - correctedWithRateDsp| > MILLISECONDS_TO_100NS_UNITS 2) ∧
    (∀ a, (rateDspCorrection true false correctedWithRateDsp (some t)).1 = some a →
      (rateDspCorrection true false correctedWithRateDsp (some t)).2 =
        correctedWithRateDsp + a) := by
  by_cases hth : |t.graphTime - t.myTime - correctedWithRateDsp| > MILLISECONDS_TO_100NS_UNITS 2
  · constructor
    · simp [rateDspCorrection, gt_iff_lt, hstarted, hth]
    · intro a ha
      simp [rateDspCorrection, gt_iff_lt, hstarted, hth] at ha ⊢
      omega
  · constructor
    · simp [rateDspCorrection, gt_iff_lt, hstarted, hth]
    · intro a ha
      simp [rateDspCorrection, gt_iff_lt, hstarted, hth] at ha

/-- C4 witness: with no correction accumulated and the graph clock
100000 units ahead of a started audio clock, an adjustment is fed. -/
theorem C4_rate_correction_threshold_witness :
    (rateDspCorrection true false 0 (some tW)).1.isSome = true :=
  (C4_rate_correction_threshold 0 tW (by decide)).1.mpr (by decide)

/-- C10: when no device session exists at the moment Finish is called,
the drained chunk is empty, Finish with blockUntilEnd true returns
completed immediately with the state unchanged, and behaves exactly as
Finish with blockUntilEnd false. -/
theorem C10_finish_no_device (ar : AudioRenderer) (env : FinishEnv)
    (hdev : ar.m_device = none) :
    finishChunk ar env = 0 ∧
    Finish ar true env = some (true, ar) ∧
    Finish ar true env = Finish ar false env := by
  have hchunk : finishChunk ar env = 0 := by simp [finishChunk, hdev]
  refine ⟨hchunk, ?_, ?_⟩ <;> simp [Finish, hdev, hchunk, Push]

/-- C10 witness: a Paused renderer with no session and a drain trace
available: Finish true still returns immediately. -/
theorem C10_finish_no_device_witness :
    finishChunk arPausedNoDevice envW10 = 0 ∧
    Finish arPausedNoDevice true envW10 = some (true, arPausedNoDevice) ∧
    Finish arPausedNoDevice true envW10 = Finish arPausedNoDevice false envW10 :=
  C10_finish_no_device arPausedNoDevice envW10 rfl

/-- C6: with a session present, CheckDeviceSettings leaves everything
unchanged when the settings serial has not advanced; when it has
advanced and the device query reports a compatible change the session is
kept with only its stored serial updated; when it has advanced and the
change is incompatible the session is cleared. -/
theorem C6_check_device_settings (ar : AudioRenderer) (dev : AudioDevice)
    (serial : Nat) (pDeviceName : Option String) (exclusive : Bool)
    (hdev : ar.m_device = some dev) :
    (dev.settingsSerial = serial → ∀ q, CheckDeviceSettings ar serial q = ar) ∧
    (dev.settingsSerial ≠ serial →
      deviceSettingsCompatible dev pDeviceName exclusive = true →
      CheckDeviceSettings ar serial (some (pDeviceName, exclusive)) =
        { ar with m_device := some { dev with settingsSerial := serial } }) ∧
    (dev.settingsSerial ≠ serial →
      deviceSettingsCompatible dev pDeviceName exclusive = false →
      CheckDeviceSettings ar serial (some (pDeviceName, exclusive)) = ClearDevice ar ∧
      (CheckDeviceSettings ar serial (some (pDeviceName, exclusive))).m_device = none) := by
  refine ⟨?_, ?_, ?_⟩
  · intro hser q
    simp [CheckDeviceSettings, hdev, hser]
  · intro hser hcompat
    have h2 := congrArg (fun b => !b) hcompat
    simp only [deviceSettingsCompatible, Bool.not_not, Bool.not_true] at h2
    simp [CheckDeviceSettings, hdev, hser, h2]
  · intro hser hcompat
    have h2 := congrArg (fun b => !b) hcompat
    simp only [deviceSettingsCompatible, Bool.not_not, Bool.not_false] at h2
    constructor <;> simp [CheckDeviceSettings, hdev, hser, h2, ClearDevice]

/-- C6 witness: serial advanced from 7 to 8 with an unchanged explicit
device name and exclusivity: the session is kept, serial updated. -/
theorem C6_check_device_settings_witness :
    CheckDeviceSettings arRun 8 (some (some "Speakers", false)) =
      { arRun with m_device := some { devW with settingsSerial := 8 } } :=
  (C6_check_device_settings arRun devW 8 (some "Speakers") false rfl).2.1
    (by decide) (by decide)

/-- C3: a successful write iteration of the Push loop writes exactly the
minimum of the free device buffer space and the frames remaining in the
chunk, sets the buffer-filled event exactly when padding plus written
frames equals buffer capacity (clearing it otherwise), and advances the
pushed-frame counter by exactly the written frames. -/
theorem C3_push_write_iteration (chunkFrames : Nat) (lse : Int) (ar : AudioRenderer)
    (doneFrames : Nat) (firstIteration : Bool) (ev : PushIterEvent) (dev : AudioDevice)
    (bufferFrames bufferPadding : Nat)
    (hdev : ar.m_device = some dev)
    (hq : ev.bufferQuery = some (bufferFrames, bufferPadding))
    (hw : ev.writeOk = true)
    (hf : ev.flushFired = false)
    (hpos : 0 < min (bufferFrames - bufferPadding) (chunkFrames - doneFrames)) :
    pushIter chunkFrames lse ar doneFrames firstIteration ev =
      PushStep.next
        { ar with
            m_bufferFilled := decide (bufferPadding +
              min (bufferFrames - bufferPadding) (chunkFrames - doneFrames) = bufferFrames)
            m_pushedFrames := ar.m_pushedFrames +
              min (bufferFrames - bufferPadding) (chunkFrames - doneFrames) }
        (doneFrames + min (bufferFrames - bufferPadding) (chunkFrames - doneFrames)) := by
  have hne : min (bufferFrames - bufferPadding) (chunkFrames - doneFrames) ≠ 0 := by omega
  simp [pushIter, hdev, hq, hw, hf, hne]

/-- C3 witness: 6-frame buffer with 2 frames padding and 10 frames
remaining: 4 frames written, buffer exactly filled, counter advanced by
4. -/
theorem C3_push_write_iteration_witness :
    pushIter 10 0 arRun 0 true evW3 =
      PushStep.next { arRun with m_bufferFilled := true, m_pushedFrames := 4 } 4 :=
  C3_push_write_iteration 10 0 arRun 0 true evW3 devW 6 2 rfl rfl rfl rfl (by decide)

/-- C5: when the DSP processing portion of Enqueue hits the
out-of-resources condition on a live non-bitstream session (settings
serial unchanged), the session is cleared, the chunk handed to Push is
the empty chunk, the pushed-frame counter is zeroed, and Enqueue still
completes normally through Push, returning delivered. -/
theorem C5_enqueue_alloc_failure_degrades (ar : AudioRenderer) (env : EnqueueEnv)
    (dev : AudioDevice)
    (hdev : ar.m_device = some dev)
    (hser : dev.settingsSerial = env.settingsSerial)
    (hbs : dev.bitstream = false)
    (halloc : env.dspAllocOk = false) :
    (enqueueLocked ar env).1 = 0 ∧
    (enqueueLocked ar env).2.m_device = none ∧
    (enqueueLocked ar env).2.m_pushedFrames = 0 ∧
    Enqueue ar env = some (true, (enqueueLocked ar env).2) := by
  have h1 : CheckDeviceSettings ar env.settingsSerial env.outputDeviceQuery = ar := by
    simp [CheckDeviceSettings, hdev, hser]
  have hdev3 : (enqueueRunningSync ar env.clockTimes).m_device = some dev := by
    simp only [enqueueRunningSync, hdev]
    split <;> simp [hdev]
  have hloc : enqueueLocked ar env =
      (0, ClearDevice (enqueueRunningSync ar env.clockTimes)) := by
    simp only [enqueueLocked, h1, hdev, Option.isNone_some, Bool.false_eq_true, if_false]
    simp [enqueueDsp, hdev3, hbs, halloc]
  refine ⟨?_, ?_, ?_, ?_⟩
  · rw [hloc]
  · rw [hloc]; rfl
  · rw [hloc]; rfl
  · simp only [Enqueue, hloc]
    simp [Push]

/-- C5 witness: a Running non-bitstream session, DSP allocation fails:
Enqueue still returns delivered with the post-clear state. -/
theorem C5_enqueue_alloc_failure_degrades_witness :
    Enqueue arRun envW5 = some (true, (enqueueLocked arRun envW5).2) :=
  (C5_enqueue_alloc_failure_degrades arRun envW5 devW rfl rfl rfl rfl).2.2.2

/-- Helper: a raised flush signal on a non-first iteration makes the Push
loop body return incomplete without touching the state. -/
theorem pushIter_flush_step (chunkFrames : Nat) (lse : Int) (ar : AudioRenderer)
    (doneFrames : Nat) (firstIteration : Bool) (ev : PushIterEvent)
    (hflush : (!firstIteration && ev.flushFired) = true) :
    pushIter chunkFrames lse ar doneFrames firstIteration ev = PushStep.ret false ar := by
  simp [pushIter, hflush]

/-- Helper: a healthy iteration finding no free buffer space continues
without changing anything. -/
theorem pushIter_skip_step (chunkFrames : Nat) (lse : Int) (ar : AudioRenderer)
    (doneFrames : Nat) (firstIteration : Bool) (ev : PushIterEvent) (dev : AudioDevice)
    (bufferFrames bufferPadding : Nat)
    (hdev : ar.m_device = some dev)
    (hq : ev.bufferQuery = some (bufferFrames, bufferPadding))
    (hflush : (!firstIteration && ev.flushFired) = false)
    (hzero : min (bufferFrames - bufferPadding) (chunkFrames - doneFrames) = 0) :
    pushIter chunkFrames lse ar doneFrames firstIteration ev = PushStep.next ar doneFrames := by
  simp [pushIter, hdev, hq, hflush, hzero]

/-- Helper: a healthy iteration with free buffer space writes the minimum
of free space and remaining frames, updates the buffer-filled event, and
advances the pushed-frame counter. -/
theorem pushIter_write_step (chunkFrames : Nat) (lse : Int) (ar : AudioRenderer)
    (doneFrames : Nat) (firstIteration : Bool) (ev : PushIterEvent) (dev : AudioDevice)
    (bufferFrames bufferPadding : Nat)
    (hdev : ar.m_device = some dev)
    (hq : ev.bufferQuery = some (bufferFrames, bufferPadding))
    (hw : ev.writeOk = true)
    (hflush : (!firstIteration && ev.flushFired) = false)
    (hpos : 0 < min (bufferFrames - bufferPadding) (chunkFrames - doneFrames)) :
    pushIter chunkFrames lse ar doneFrames firstIteration ev =
      PushStep.next
        { ar with
            m_bufferFilled := decide (bufferPadding +
              min (bufferFrames - bufferPadding) (chunkFrames - doneFrames) = bufferFrames)
            m_pushedFrames := ar.m_pushedFrames +
              min (bufferFrames - bufferPadding) (chunkFrames - doneFrames) }
        (doneFrames + min (bufferFrames - bufferPadding) (chunkFrames - doneFrames)) := by
  have hne : min (bufferFrames - bufferPadding) (chunkFrames - doneFrames) ≠ 0 := by omega
  simp [pushIter, hdev, hq, hw, hflush, hne]

/-- Helper: unfolding the Push loop on a returning body execution. -/
theorem pushLoop_cons_ret (chunkFrames : Nat) (lse : Int) (ar : AudioRenderer)
    (doneFrames : Nat) (firstIteration : Bool) (ev : PushIterEvent)
    (rest : List PushIterEvent) (hdone : ¬ chunkFrames ≤ doneFrames)
    (r : Bool) (ar1 : AudioRenderer)
    (hstep : pushIter chunkFrames lse ar doneFrames firstIteration ev = PushStep.ret r ar1) :
    pushLoop chunkFrames lse ar doneFrames firstIteration (ev :: rest) = some (r, ar1) := by
  rw [pushLoop, if_neg hdone, hstep]

/-- Helper: unfolding the Push loop on a continuing body execution. -/
theorem pushLoop_cons_next (chunkFrames : Nat) (lse : Int) (ar : AudioRenderer)
    (doneFrames : Nat) (firstIteration : Bool) (ev : PushIterEvent)
    (rest : List PushIterEvent) (hdone : ¬ chunkFrames ≤ doneFrames)
    (ar1 : AudioRenderer) (done1 : Nat)
    (hstep : pushIter chunkFrames lse ar doneFrames firstIteration ev = PushStep.next ar1 done1) :
    pushLoop chunkFrames lse ar doneFrames firstIteration (ev :: rest) =
      pushLoop chunkFrames lse ar1 done1 false rest := by
  rw [pushLoop, if_neg hdone, hstep]

/-- Helper: over a healthy trace (buffer queries and writes succeeding)
with a device session, the Push loop delivers everything when it reports
success, and reports incomplete only when some flush wait fired. -/
theorem pushLoop_healthy_delivery (chunkFrames : Nat) (lse : Int) :
    ∀ (evs : List PushIterEvent) (ar : AudioRenderer) (doneFrames : Nat)
      (firstIteration : Bool) (r : Bool) (ar1 : AudioRenderer),
      ar.m_device.isSome = true →
      (∀ ev ∈ evs, ev.bufferQuery.isSome = true ∧ ev.writeOk = true) →
      doneFrames ≤ chunkFrames →
      pushLoop chunkFrames lse ar doneFrames firstIteration evs = some (r, ar1) →
      (r = true → ar1.m_pushedFrames + doneFrames = ar.m_pushedFrames + chunkFrames) ∧
      (r = false → ∃ ev ∈ evs, ev.flushFired = true) := by
  intro evs
  induction evs with
  | nil =>
    intro ar doneFrames firstIteration r ar1 hdev hh hle hres
    rw [pushLoop] at hres
    by_cases hdone : chunkFrames ≤ doneFrames
    · rw [if_pos hdone] at hres
      simp only [Option.some.injEq, Prod.mk.injEq] at hres
      obtain ⟨hr, ha⟩ := hres
      subst hr; subst ha
      exact ⟨fun _ => by omega, fun hfalse => by simp at hfalse⟩
    · rw [if_neg hdone] at hres
      exact Option.noConfusion hres
  | cons ev rest ih =>
    intro ar doneFrames firstIteration r ar1 hdev hh hle hres
    by_cases hdone : chunkFrames ≤ doneFrames
    · rw [pushLoop, if_pos hdone] at hres
      simp only [Option.some.injEq, Prod.mk.injEq] at hres
      obtain ⟨hr, ha⟩ := hres
      subst hr; subst ha
      exact ⟨fun _ => by omega, fun hfalse => by simp at hfalse⟩
    · obtain ⟨hq, hw⟩ := hh ev (List.mem_cons_self ev rest)
      obtain ⟨dev, hdev2⟩ := Option.isSome_iff_exists.mp hdev
      obtain ⟨⟨bufferFrames, bufferPadding⟩, hbq⟩ := Option.isSome_iff_exists.mp hq
      by_cases hflush : (!firstIteration && ev.flushFired) = true
      · rw [pushLoop_cons_ret chunkFrames lse ar doneFrames firstIteration ev rest hdone
            false ar (pushIter_flush_step chunkFrames lse ar doneFrames firstIteration ev hflush)]
          at hres
        simp only [Option.some.injEq, Prod.mk.injEq] at hres
        obtain ⟨hr, ha⟩ := hres
        subst hr; subst ha
        refine ⟨fun htrue => by simp at htrue,
          fun _ => ⟨ev, List.mem_cons_self ev rest, ?_⟩⟩
        exact ((Bool.and_eq_true _ _).mp hflush).2
      · have hflush2 : (!firstIteration && ev.flushFired) = false :=
          Bool.not_eq_true _ ▸ eq_false_of_ne_true hflush
        by_cases hzero : min (bufferFrames - bufferPadding) (chunkFrames - doneFrames) = 0
        · rw [pushLoop_cons_next chunkFrames lse ar doneFrames firstIteration ev rest hdone
              ar doneFrames
              (pushIter_skip_step chunkFrames lse ar doneFrames firstIteration ev dev
                bufferFrames bufferPadding hdev2 hbq hflush2 hzero)] at hres
          have hrec := ih ar doneFrames false r ar1 hdev
            (fun e he => hh e (List.mem_cons_of_mem ev he)) hle hres
          refine ⟨hrec.1, fun hf => ?_⟩
          obtain ⟨e, he, hff⟩ := hrec.2 hf
          exact ⟨e, List.mem_cons_of_mem ev he, hff⟩
        · have hpos : 0 < min (bufferFrames - bufferPadding) (chunkFrames - doneFrames) :=
            Nat.pos_of_ne_zero hzero
          rw [pushLoop_cons_next chunkFrames lse ar doneFrames firstIteration ev rest hdone
              _ _
              (pushIter_write_step chunkFrames lse ar doneFrames firstIteration ev dev
                bufferFrames bufferPadding hdev2 hbq hw hflush2 hpos)] at hres
          have hmin := Nat.min_le_right (bufferFrames - bufferPadding) (chunkFrames - doneFrames)
          have hle2 : doneFrames +
              min (bufferFrames - bufferPadding) (chunkFrames - doneFrames) ≤ chunkFrames := by
            omega
          have hrec := ih
            { ar with
                m_bufferFilled := decide (bufferPadding +
                  min (bufferFrames - bufferPadding) (chunkFrames - doneFrames) = bufferFrames)
                m_pushedFrames := ar.m_pushedFrames +
                  min (bufferFrames - bufferPadding) (chunkFrames - doneFrames) }
            (doneFrames + min (bufferFrames - bufferPadding) (chunkFrames - doneFrames))
            false r ar1 hdev (fun e he => hh e (List.mem_cons_of_mem ev he)) hle2 hres
          refine ⟨fun htrue => ?_, fun hf => ?_⟩
          · have h3 : ar1.m_pushedFrames +
                (doneFrames + min (bufferFrames - bufferPadding) (chunkFrames - doneFrames)) =
                (ar.m_pushedFrames +
                  min (bufferFrames - bufferPadding) (chunkFrames - doneFrames)) +
                  chunkFrames := hrec.1 htrue
            omega
          · obtain ⟨e, he, hff⟩ := hrec.2 hf
            exact ⟨e, List.mem_cons_of_mem ev he, hff⟩

/-- C2: on a healthy trace (every buffer query and write succeeds) with a
device session present, Push reports delivered only when the pushed-frame
counter has advanced by the full chunk (no frame remains undelivered),
and reports incomplete only when the flush signal fired during one of its
bounded waits. -/
theorem C2_push_complete_or_flush (ar : AudioRenderer) (chunkFrames : Nat) (lse : Int)
    (evs : List PushIterEvent) (r : Bool) (ar1 : AudioRenderer)
    (hdev : ar.m_device.isSome = true)
    (hhealthy : ∀ ev ∈ evs, ev.bufferQuery.isSome = true ∧ ev.writeOk = true)
    (hres : Push ar chunkFrames lse evs = some (r, ar1)) :
    (r = true → ar1.m_pushedFrames = ar.m_pushedFrames + chunkFrames) ∧
    (r = false → ∃ ev ∈ evs, ev.flushFired = true) := by
  rw [Push] at hres
  by_cases hzero : chunkFrames = 0
  · rw [if_pos hzero] at hres
    simp only [Option.some.injEq, Prod.mk.injEq] at hres
    obtain ⟨hr, ha⟩ := hres
    subst hr; subst ha
    exact ⟨fun _ => by omega, fun hfalse => by simp at hfalse⟩
  · rw [if_neg hzero] at hres
    have h := pushLoop_healthy_delivery chunkFrames lse evs ar 0 true r ar1 hdev hhealthy
      (Nat.zero_le _) hres
    exact ⟨fun htrue => by have := h.1 htrue; omega, h.2⟩

/-- C2 witness: a 3-frame chunk through two healthy iterations of a
2-frame device buffer is fully delivered. -/
theorem C2_push_complete_or_flush_witness :
    arW2res.m_pushedFrames = arRun.m_pushedFrames + 3 :=
  (C2_push_complete_or_flush arRun 3 0 evsW2 true arW2res rfl (by decide) rfl).1 rfl

/-- Helper: ClearDevice establishes the pushed-frames invariant
unconditionally. -/
theorem Inv_ClearDevice (ar : AudioRenderer) : Inv (ClearDevice ar) :=
  fun _ => rfl

/-- Helper: Play preserves the pushed-frames invariant. -/
theorem Inv_Play (ar : AudioRenderer) (t : Int) (h : Inv ar) : Inv (Play ar t) := by
  unfold Play StartDevice
  split <;> exact h

/-- Helper: NewSegment preserves the pushed-frames invariant. -/
theorem Inv_NewSegment (ar : AudioRenderer) (rate : Rat) (h : Inv ar) :
    Inv (NewSegment ar rate) := by
  simp only [NewSegment]
  split <;> exact h

/-- Helper: SetClock preserves the pushed-frames invariant. -/
theorem Inv_SetClock (ar : AudioRenderer) (clockChanged : Bool) (h : Inv ar) :
    Inv (SetClock ar clockChanged) := by
  simp only [SetClock]
  split
  · exact Inv_ClearDevice _
  · exact h

/-- Helper: CheckDeviceSettings preserves the pushed-frames invariant. -/
theorem Inv_CheckDeviceSettings (ar : AudioRenderer) (serial : Nat)
    (q : Option (Option String × Bool)) (h : Inv ar) :
    Inv (CheckDeviceSettings ar serial q) := by
  unfold CheckDeviceSettings
  split
  · exact h
  · split
    · split
      · exact h
      · split
        · exact Inv_ClearDevice ar
        · intro hn
          exact Option.noConfusion hn
    · exact h

/-- Helper: CreateDevice preserves the pushed-frames invariant when
invoked with no session present. -/
theorem Inv_CreateDevice (ar : AudioRenderer) (created : Option AudioDevice)
    (lse : Int) (h : Inv ar) (hdev : ar.m_device = none) :
    Inv (CreateDevice ar created lse) := by
  unfold CreateDevice
  split
  · intro _
    exact h hdev
  · unfold StartDevice
    split
    · split <;> intro hn <;> exact Option.noConfusion hn
    · intro hn
      exact Option.noConfusion hn

/-- Helper: the device-less tail of a Push iteration preserves the
pushed-frames invariant. -/
theorem Inv_pushNoDeviceTail (ar : AudioRenderer) (lse : Int) (done : Nat)
    (gt : Option Int) (h : Inv ar) : PushStepInv (pushNoDeviceTail ar lse done gt) := by
  simp only [pushNoDeviceTail]
  split
  · split
    · exact h
    · exact h
  · exact h

/-- Helper: every Push loop body outcome preserves the pushed-frames
invariant. -/
theorem Inv_pushIter_step (c : Nat) (l : Int) (ar : AudioRenderer) (d : Nat)
    (f : Bool) (ev : PushIterEvent) (h : Inv ar) :
    PushStepInv (pushIter c l ar d f ev) := by
  simp only [pushIter]
  split
  · exact h
  · split
    next dev heq =>
      split
      next bf bp heq2 =>
        split
        · exact h
        · split
          · intro hn
            rw [heq] at hn
            exact Option.noConfusion hn
          · exact Inv_pushNoDeviceTail _ _ _ _ (Inv_ClearDevice ar)
      next heq2 =>
        exact Inv_pushNoDeviceTail _ _ _ _ (Inv_ClearDevice ar)
    next heq =>
      exact Inv_pushNoDeviceTail _ _ _ _ h

/-- Helper: the Push loop preserves the pushed-frames invariant. -/
theorem Inv_pushLoop (c : Nat) (l : Int) :
    ∀ (evs : List PushIterEvent) (ar : AudioRenderer) (d : Nat) (f : Bool)
      (r : Bool) (ar1 : AudioRenderer), Inv ar →
      pushLoop c l ar d f evs = some (r, ar1) → Inv ar1 := by
  intro evs
  induction evs with
  | nil =>
    intro ar d f r ar1 h hres
    rw [pushLoop] at hres
    split at hres
    · simp only [Option.some.injEq, Prod.mk.injEq] at hres
      obtain ⟨_, ha⟩ := hres
      subst ha
      exact h
    · exact Option.noConfusion hres
  | cons ev rest ih =>
    intro ar d f r ar1 h hres
    by_cases hdone : c ≤ d
    · rw [pushLoop, if_pos hdone] at hres
      simp only [Option.some.injEq, Prod.mk.injEq] at hres
      obtain ⟨_, ha⟩ := hres
      subst ha
      exact h
    · have hstep := Inv_pushIter_step c l ar d f ev h
      cases hiter : pushIter c l ar d f ev with
      | ret r2 ar2 =>
        rw [pushLoop_cons_ret c l ar d f ev rest hdone r2 ar2 hiter] at hres
        simp only [Option.some.injEq, Prod.mk.injEq] at hres
        obtain ⟨_, ha⟩ := hres
        subst ha
        rw [hiter] at hstep
        exact hstep
      | next ar2 d2 =>
        rw [pushLoop_cons_next c l ar d f ev rest hdone ar2 d2 hiter] at hres
        rw [hiter] at hstep
        exact ih ar2 d2 false r ar1 hstep hres

/-- Helper: Push preserves the pushed-frames invariant. -/
theorem Inv_Push (ar : AudioRenderer) (c : Nat) (l : Int)
    (evs : List PushIterEvent) (r : Bool) (ar1 : AudioRenderer) (h : Inv ar)
    (hres : Push ar c l evs = some (r, ar1)) : Inv ar1 := by
  rw [Push] at hres
  split at hres
  · simp only [Option.some.injEq, Prod.mk.injEq] at hres
    obtain ⟨_, ha⟩ := hres
    subst ha
    exact h
  · exact Inv_pushLoop c l evs ar 0 true r ar1 h hres

/-- Helper: the blocking drain wait preserves the pushed-frames
invariant. -/
theorem Inv_doBlock :
    ∀ (evs : List DrainEvent) (ar : AudioRenderer) (r : Bool)
      (ar1 : AudioRenderer), Inv ar →
      doBlock ar evs = some (r, ar1) → Inv ar1 := by
  intro evs
  induction evs with
  | nil =>
    intro ar r ar1 h hres
    rw [doBlock] at hres
    split at hres
    · simp only [Option.some.injEq, Prod.mk.injEq] at hres
      obtain ⟨_, ha⟩ := hres
      subst ha
      exact h
    · exact Option.noConfusion hres
  | cons ev rest ih =>
    intro ar r ar1 h hres
    simp only [doBlock] at hres
    split at hres
    · simp only [Option.some.injEq, Prod.mk.injEq] at hres
      obtain ⟨_, ha⟩ := hres
      subst ha
      exact h
    · split at hres
      · simp only [Option.some.injEq, Prod.mk.injEq] at hres
        obtain ⟨_, ha⟩ := hres
        subst ha
        exact Inv_ClearDevice ar
      · split at hres
        · simp only [Option.some.injEq, Prod.mk.injEq] at hres
          obtain ⟨_, ha⟩ := hres
          subst ha
          exact h
        · split at hres
          · simp only [Option.some.injEq, Prod.mk.injEq] at hres
            obtain ⟨_, ha⟩ := hres
            subst ha
            exact h
          · split at hres
            · simp only [Option.some.injEq, Prod.mk.injEq] at hres
              obtain ⟨_, ha⟩ := hres
              subst ha
              exact h
            · exact ih ar r ar1 h hres

/-- Helper: the running clock synchronization preserves the pushed-frames
invariant. -/
theorem Inv_enqueueRunningSync (ar : AudioRenderer) (cl : Option ClockTimes)
    (h : Inv ar) : Inv (enqueueRunningSync ar cl) := by
  unfold enqueueRunningSync
  split
  · split
    · exact h
    · exact h
  · exact h

/-- Helper: the DSP chain invocation preserves the pushed-frames
invariant. -/
theorem Inv_enqueueDsp (ar : AudioRenderer) (chunk : Nat) (ok : Bool)
    (out : Nat) (h : Inv ar) : Inv (enqueueDsp ar chunk ok out).2 := by
  unfold enqueueDsp
  split
  · split
    · split
      · exact h
      · exact Inv_ClearDevice ar
    · exact h
  · exact h

/-- Helper: the locked section of Enqueue preserves the pushed-frames
invariant. -/
theorem Inv_enqueueLocked (ar : AudioRenderer) (env : EnqueueEnv) (h : Inv ar) :
    Inv (enqueueLocked ar env).2 := by
  have h1 := Inv_CheckDeviceSettings ar env.settingsSerial env.outputDeviceQuery h
  simp only [enqueueLocked]
  apply Inv_enqueueDsp
  apply Inv_enqueueRunningSync
  split
  next hnone =>
    exact Inv_CreateDevice _ env.createdDevice env.lastSampleEnd h1
      (Option.isNone_iff_eq_none.mp hnone)
  next hnone => exact h1

/-- Helper: Enqueue preserves the pushed-frames invariant. -/
theorem Inv_Enqueue (ar : AudioRenderer) (env : EnqueueEnv) (r : Bool)
    (ar1 : AudioRenderer) (h : Inv ar) (hres : Enqueue ar env = some (r, ar1)) :
    Inv ar1 := by
  simp only [Enqueue] at hres
  exact Inv_Push _ _ _ _ r ar1 (Inv_enqueueLocked ar env h) hres

/-- Helper: Finish preserves the pushed-frames invariant. -/
theorem Inv_Finish (ar : AudioRenderer) (blockUntilEnd : Bool) (env : FinishEnv)
    (r : Bool) (ar1 : AudioRenderer) (h : Inv ar)
    (hres : Finish ar blockUntilEnd env = some (r, ar1)) : Inv ar1 := by
  simp only [Finish] at hres
  split at hres
  next hp => exact Option.noConfusion hres
  next ar2 hp =>
    have h2 := Inv_Push ar _ _ _ false ar2 h hp
    simp only [Option.some.injEq, Prod.mk.injEq] at hres
    obtain ⟨_, ha⟩ := hres
    subst ha
    exact h2
  next ar2 hp =>
    have h2 := Inv_Push ar _ _ _ true ar2 h hp
    split at hres
    · split at hres
      next hft => exact absurd hft (by decide)
      next =>
        simp only [Option.some.injEq, Prod.mk.injEq] at hres
        obtain ⟨_, ha⟩ := hres
        subst ha
        exact h2
    · split at hres
      next => exact Inv_doBlock env.drainEvents ar2 r ar1 h2 hres
      next =>
        simp only [Option.some.injEq, Prod.mk.injEq] at hres
        obtain ⟨_, ha⟩ := hres
        subst ha
        exact h2

/-- C9: the pushed-frames invariant (no session implies a zero counter)
holds initially and is preserved by every renderer operation, and both
ClearDevice (reached from Stop, SetFormat, hardware errors, allocation
failures and incompatible settings changes) and EndFlush zero the
pushed-frame counter. -/
theorem C9_pushed_frames_invariant :
    Inv initialState ∧
    (∀ ar ar1 : AudioRenderer, Inv ar → Step ar ar1 → Inv ar1) ∧
    (∀ ar : AudioRenderer, (ClearDevice ar).m_pushedFrames = 0) ∧
    (∀ ar : AudioRenderer, (EndFlush ar).m_pushedFrames = 0) := by
  refine ⟨fun _ => rfl, ?_, fun _ => rfl, fun _ => rfl⟩
  intro ar ar1 h hstep
  cases hstep with
  | setClock clockChanged => exact Inv_SetClock ar clockChanged h
  | play t => exact Inv_Play ar t h
  | pause => exact h
  | stop => exact Inv_ClearDevice _
  | setFormat f => exact Inv_ClearDevice _
  | newSegment rate => exact Inv_NewSegment ar rate h
  | beginFlush => exact h
  | endFlush => exact fun _ => rfl
  | checkDeviceSettings serial q => exact Inv_CheckDeviceSettings ar serial q h
  | enqueue env r ar2 hres => exact Inv_Enqueue ar env r ar1 h hres
  | finish blockUntilEnd env r ar2 hres =>
      exact Inv_Finish ar blockUntilEnd env r ar1 h hres

/-- C9 witness: the preservation part applied to a concrete Pause step
from the initial state. -/
theorem C9_pushed_frames_invariant_witness : Inv (Pause initialState) :=
  C9_pushed_frames_invariant.2.1 initialState (Pause initialState)
    (fun _ => rfl) (Step.pause initialState)

end SaneAudioRenderer
